import Mathlib

/-!
Verification of the RemoteEdit plugin (src/RemoteEdit.py) against its
natural-language specification.

The development shallowly embeds the plugin's pure decision logic and its
stateful open / save / close flows:

* `scpAction` embeds the error-classification branch of the `scp` function
  (RemoteEdit.py lines 53-95): what visible action the function performs for a
  given subprocess return code, captured stderr text, source/destination
  strings, and `create_if_missing` flag.
* `mergeCim` / `mergeSsh` embed the layer-merging loop of `get_settings`
  (lines 20-50).
* `parseOpenPath` embeds the `path.split(':', 1)` line-number parsing of
  `RemoteEditOpenRemoteFileCommand.run` (lines 157-159, 193-198).
* `openFlowCore` embeds the post-resolution part of the open command
  (lines 165-188) as a transition on an explicit `World` state (open views,
  temp directories and files on disk, number of scp invocations).
* `saveScpArgs` embeds `RemoteEditListener.on_post_save` (lines 202-216) and
  `closeTrace` embeds `RemoteEditListener.on_close` (lines 218-230).

Python string primitives (`in`, `lower`, `isdigit`, `split`, `os.path.dirname`)
are modelled character-list by character-list so that every definition is
executable and every concrete instance can be settled by `decide`.
-/

/-- Membership test on character lists: `containsSub hay need` is Python's
`need in hay` for nonempty `need` (and `True` on empty `need`). -/
def containsSub : List Char → List Char → Bool
  | [], need => need.isEmpty
  | h :: t, need => need.isPrefixOf (h :: t) || containsSub t need

/-- Python's `needle in hay` on strings. -/
def pyIn (needle hay : String) : Bool :=
  containsSub hay.data needle.data

/-- Python's `str.lower()` (ASCII, which is all the code compares). -/
def pyLower (s : String) : String :=
  ⟨s.data.map Char.toLower⟩

/-- Python's `str.isdigit()` restricted to ASCII digits: nonempty and all
digits. -/
def pyIsdigit (s : String) : Bool :=
  !s.data.isEmpty && s.data.all Char.isDigit

/-- Python's `int()` on a digit string. -/
def digitsVal (l : List Char) : Nat :=
  l.foldl (fun a c => a * 10 + (c.toNat - '0'.toNat)) 0

/-- Split a character list at the FIRST occurrence of `c`, as Python's
`s.split(c, 1)` does when `c` occurs; `none` when it does not occur. -/
def splitFirst : List Char → Char → Option (List Char × List Char)
  | [], _ => none
  | h :: t, c =>
    if h = c then some ([], t)
    else
      match splitFirst t c with
      | none => none
      | some (a, b) => some (h :: a, b)

/-- Split a character list at the LAST occurrence of `c`; `none` when `c`
does not occur. -/
def splitLast : List Char → Char → Option (List Char × List Char)
  | [], _ => none
  | h :: t, c =>
    match splitLast t c with
    | some (a, b) => some (h :: a, b)
    | none => if h = c then some ([], t) else none

/-- Drop trailing copies of `c`, as Python's `str.rstrip(c)`. -/
def rstripChar (l : List Char) (c : Char) : List Char :=
  (l.reverse.dropWhile (fun x => x == c)).reverse

/-- Python's `os.path.dirname` (posixpath): everything up to and including the
last slash, then trailing slashes stripped unless the head is all slashes. -/
def pyDirname (s : String) : String :=
  match splitLast s.data '/' with
  | none => ""
  | some (a, _) =>
    let head := a ++ ['/']
    if head.all (fun x => x == '/') then ⟨head⟩ else ⟨rstripChar head '/'⟩

/-- Truthiness of an optional string setting: Python `None` and `""` are
falsy, any other string is truthy. -/
def strTruthy : Option String → Bool
  | none => false
  | some s => !s.data.isEmpty

/-- The visible action performed by the error branch of `scp`
(RemoteEdit.py lines 77-95). -/
inductive ScpAction where
  /-- `sublime.error_message(error_message)` is shown. -/
  | showError (msg : String)
  /-- Status message shown and an empty file created at the destination. -/
  | createEmpty
  /-- Status message "not creating it" shown; nothing created. -/
  | skipMsg
  /-- No branch taken: the function returns without any visible action. -/
  | noAction
deriving DecidableEq, Repr

/-- Embedding of the classification logic of `scp` (RemoteEdit.py lines
77-95): only return code 1 is inspected; within it, only a nonempty decoded
stderr text is classified, by the three-way branch of the source. -/
def scpAction (returnCode : Int) (stderrText : String)
    (from_path to_path : String) (create_if_missing : Bool) : ScpAction :=
  if returnCode = 1 then
    if stderrText ≠ "" then
      if !(pyIn "no such file or directory" (pyLower stderrText))
          || pyIn "please try again" (pyLower stderrText)
          || !(pyIn "@" from_path)
          || !create_if_missing then
        ScpAction.showError stderrText
      else if !(pyIn "@" to_path) && create_if_missing then
        ScpAction.createEmpty
      else
        ScpAction.skipMsg
    else ScpAction.noAction
  else ScpAction.noAction

/-- The spec's `TransferOutcome` variant (spec §3). -/
inductive TransferOutcome where
  | Success
  | FatalError (msg : String)
  | MissingSourceCreate
  | MissingSourceSkip
deriving DecidableEq, Repr

/-- The transfer outcome realised by the code, read off `scpAction`: a run in
which `scp` takes no visible action is observationally a success at the
operator level (the caller then just tests whether the destination file
exists), so `ScpAction.noAction` maps to `Success`. -/
def classify (returnCode : Int) (stderrText : String)
    (from_path to_path : String) (create_if_missing : Bool) : TransferOutcome :=
  match scpAction returnCode stderrText from_path to_path create_if_missing with
  | ScpAction.showError m => TransferOutcome.FatalError m
  | ScpAction.createEmpty => TransferOutcome.MissingSourceCreate
  | ScpAction.skipMsg => TransferOutcome.MissingSourceSkip
  | ScpAction.noAction => TransferOutcome.Success

/-- Modelled from the spec: the §4.1 decision table for a failed transfer with
captured error text, written exactly from the spec's words, to be compared
with `classify` (which is read off the source). -/
def specTable (stderrText : String) (source destination : String)
    (createIfMissing : Bool) : TransferOutcome :=
  if !(pyIn "no such file or directory" (pyLower stderrText))
      || pyIn "please try again" (pyLower stderrText)
      || !(pyIn "@" source)
      || !createIfMissing then
    TransferOutcome.FatalError stderrText
  else if !(pyIn "@" destination) && createIfMissing then
    TransferOutcome.MissingSourceCreate
  else
    TransferOutcome.MissingSourceSkip

/-- A per-alias ssh descriptor as stored under `ssh_configs`. -/
structure SshConfig where
  address : Option String
  username : Option String
deriving DecidableEq, Repr

/-- The alias table: Python dict modelled as an association list. -/
abbrev AliasTable := List (String × SshConfig)

/-- A dynamically-typed settings value, as Python hands them to
`get_settings`: a bool, a dict (only the alias-table shape matters), or
anything else. -/
inductive PyVal where
  | vbool (b : Bool)
  | vdict (d : AliasTable)
  | vother
deriving DecidableEq, Repr

/-- One configuration layer as seen inside the loop of `get_settings`: the
values found under the two keys it reads (`none` = key absent). -/
structure Layer where
  create_if_missing : Option PyVal
  ssh_configs : Option PyVal
deriving DecidableEq, Repr

/-- `False if not isinstance(x, bool) else x` (RemoteEdit.py line 43),
with absent keys reading as `None`. -/
def coerceBool : Option PyVal → Bool
  | some (PyVal.vbool b) => b
  | _ => false

/-- `{} if not isinstance(x, dict) else x` (RemoteEdit.py line 47). -/
def coerceDict : Option PyVal → AliasTable
  | some (PyVal.vdict d) => d
  | _ => []

/-- The `create_if_missing` accumulation of the `get_settings` loop
(RemoteEdit.py lines 32-44): a `none` layer is skipped (`continue`); a present
layer updates the running value only when the running value is not `None`
(the `if create_if_missing is not None` guard), and the update coerces the
layer's value to a bool. The running value starts as the caller's argument. -/
def mergeCim : Option PyVal → List (Option Layer) → Option PyVal
  | cur, [] => cur
  | cur, none :: rest => mergeCim cur rest
  | cur, some l :: rest =>
    match cur with
    | none => mergeCim none rest
    | some _ => mergeCim (some (PyVal.vbool (coerceBool l.create_if_missing))) rest

/-- The `ssh_configs` accumulation of the `get_settings` loop (RemoteEdit.py
lines 46-48): a `none` layer is skipped; every present layer replaces the
table with its own value coerced to a dict (empty when absent or non-dict). -/
def mergeSsh : AliasTable → List (Option Layer) → AliasTable
  | cur, [] => cur
  | cur, none :: rest => mergeSsh cur rest
  | _, some l :: rest => mergeSsh (coerceDict l.ssh_configs) rest

/-- Composition of the scp location string (RemoteEdit.py lines 161-163):
`address:path`, preceded by `username@` when a username is configured; the
alias itself is the address fallback. -/
def composeScpPath (cfg : SshConfig) (aliasName path : String) : String :=
  let base := (cfg.address.getD aliasName) ++ ":" ++ path
  match cfg.username with
  | some u => u ++ "@" ++ base
  | none => base

/-- The `path` / `line_no` split of the open command (RemoteEdit.py lines
157-159): `line_no` defaults to `"0"`; when the path contains a colon,
`path.split(':', 1)` splits at the FIRST colon. -/
def parseOpenPath (path : String) : String × String :=
  match splitFirst path.data ':' with
  | none => (path, "0")
  | some (a, b) => (⟨a⟩, ⟨b⟩)

/-- The path actually used to compose the scp location (first component of
the split). -/
def transferPath (path : String) : String :=
  (parseOpenPath path).1

/-- The line the cursor is positioned at, when any (RemoteEdit.py lines
193-198): positioning happens iff `line_no` is nonempty and all digits. -/
def lineTarget (path : String) : Option Nat :=
  let ln := (parseOpenPath path).2
  if pyIsdigit ln then some (digitsVal ln.data) else none

/-- The per-view session metadata (`view.settings()`), as set by the open
command. For `scp_path` and `temp_path`, `none` models the key being absent
(`settings.get` then returns `None`, `settings.has` returns `False`). For
`create_if_missing` the outer `Option` models key presence and the inner
`Option Bool` the stored Python value (`None` or a bool). -/
structure ViewSettings where
  is_remote_edit : Bool
  scp_path : Option String
  temp_path : Option String
  create_if_missing : Option (Option Bool)
deriving DecidableEq, Repr

/-- The reuse test of the open command's view scan (RemoteEdit.py lines
167-173): `is_remote_edit` truthy, `scp_path` equal to the composed string,
and `temp_path` truthy. -/
def sessionMatches (v : ViewSettings) (scpPath : String) : Bool :=
  v.is_remote_edit && decide (v.scp_path = some scpPath) && strTruthy v.temp_path

/-- The session-registry lookup: first open view matching the composed scp
path (the `for ... break` scan over `self.window.views()`). -/
def findExisting (views : List ViewSettings) (scpPath : String) : Option ViewSettings :=
  views.find? (fun v => sessionMatches v scpPath)

/-- Observable world state threaded through the open flow: the open views
with their metadata, the temp directories and files on disk, and the number
of scp subprocess invocations performed. -/
structure World where
  views : List ViewSettings
  dirs : List String
  files : List String
  fetchCount : Nat
deriving DecidableEq, Repr

/-- Embedding of the post-resolution open flow (RemoteEdit.py lines 165-188).
`p` is the composed scp path, `d` the directory returned by
`tempfile.mkdtemp()` (its creation is the call's side effect), `b` the
basename of the remote path, `cim` the resolved `create_if_missing` value
(`none` models Python `None`), and `rc`/`st` the scp subprocess's return code
and decoded stderr. A successful copy (`rc = 0`) materialises the temp file,
as does the `createEmpty` action of `scp`; the flow registers a view iff the
temp file exists afterwards (`os.path.exists`). When a matching view already
exists the world is unchanged (the view is only focused). -/
def openFlowCore (w : World) (p d b : String) (cim : Option Bool)
    (rc : Int) (st : String) : World :=
  if (findExisting w.views p).isSome then w
  else
    let tempPath := d ++ "/" ++ b
    let act := scpAction rc st p tempPath (cim.getD false)
    let files1 := if rc = 0 ∨ act = ScpAction.createEmpty
      then w.files ++ [tempPath] else w.files
    if tempPath ∈ files1 then
      { views := w.views ++ [⟨true, some p, some tempPath, some cim⟩],
        dirs := w.dirs ++ [d], files := files1, fetchCount := w.fetchCount + 1 }
    else
      { views := w.views, dirs := w.dirs ++ [d], files := files1,
        fetchCount := w.fetchCount + 1 }

/-- A filesystem operation performed by the close handler. -/
inductive FsOp where
  | unlink (p : String)
  | rmdir (p : String)
deriving DecidableEq, Repr

/-- Embedding of `RemoteEditListener.on_close` (RemoteEdit.py lines 218-230)
as the ordered trace of filesystem operations it performs: when the view's
metadata is complete, `os.unlink(temp_path)` followed by
`os.rmdir(os.path.dirname(temp_path))`; otherwise nothing. -/
def closeTrace (v : ViewSettings) : List FsOp :=
  match v.temp_path with
  | some t =>
    if v.is_remote_edit && v.scp_path.isSome then
      [FsOp.unlink t, FsOp.rmdir (pyDirname t)]
    else []
  | none => []

/-- Removal of the closed view from the window's view list (done by the host
editor when a view closes). -/
def removeFirst : List ViewSettings → ViewSettings → List ViewSettings
  | [], _ => []
  | u :: t, v => if u = v then t else u :: removeFirst t v

/-- Embedding of `RemoteEditListener.on_post_save` (RemoteEdit.py lines
202-216): when the view's metadata is complete (`is_remote_edit` truthy and
the three keys present), the arguments `(from_path, to_path,
create_if_missing)` passed to `scp`; `none` when the save does nothing. The
handler reads only the view's stored settings — it takes no configuration. -/
def saveScpArgs (v : ViewSettings) : Option (String × String × Option Bool) :=
  match v.temp_path, v.scp_path, v.create_if_missing with
  | some t, some sp, some c =>
    if v.is_remote_edit then some (t, sp, c) else none
  | _, _, _ => none

/-! ### Helper lemmas -/

theorem data_append (s t : String) : (s ++ t).data = s.data ++ t.data := rfl

theorem slash_join_data (d b : String) :
    (d ++ "/" ++ b).data = d.data ++ '/' :: b.data := by
  rw [data_append, data_append, List.append_assoc]
  rfl

theorem colon_join_data (a b : String) :
    (a ++ ":" ++ b).data = a.data ++ ':' :: b.data := by
  rw [data_append, data_append, List.append_assoc]
  rfl

theorem join_ne_empty (d b : String) : ((d ++ "/" ++ b).data).isEmpty = false := by
  rw [slash_join_data]
  cases d.data <;> simp

theorem splitFirst_eq_none {l : List Char} {c : Char} (h : c ∉ l) :
    splitFirst l c = none := by
  induction l with
  | nil => rfl
  | cons a t ih =>
    have h1 : ¬ (a = c) := fun he => h (by rw [← he]; exact List.mem_cons_self a t)
    have h2 : c ∉ t := fun hm => h (List.mem_cons_of_mem a hm)
    simp [splitFirst, h1, ih h2]

theorem splitFirst_append (a b : List Char) (c : Char) (h : c ∉ a) :
    splitFirst (a ++ c :: b) c = some (a, b) := by
  induction a with
  | nil => simp [splitFirst]
  | cons x t ih =>
    have h1 : ¬ (x = c) := fun he => h (by rw [← he]; exact List.mem_cons_self x t)
    have h2 : c ∉ t := fun hm => h (List.mem_cons_of_mem x hm)
    simp [splitFirst, h1, ih h2]

theorem splitLast_eq_none {l : List Char} {c : Char} (h : c ∉ l) :
    splitLast l c = none := by
  induction l with
  | nil => rfl
  | cons a t ih =>
    have h1 : ¬ (a = c) := fun he => h (by rw [← he]; exact List.mem_cons_self a t)
    have h2 : c ∉ t := fun hm => h (List.mem_cons_of_mem a hm)
    simp [splitLast, h1, ih h2]

theorem splitLast_append (d b : List Char) (c : Char) (hb : c ∉ b) :
    splitLast (d ++ c :: b) c = some (d, b) := by
  induction d with
  | nil => simp [splitLast, splitLast_eq_none hb]
  | cons x t ih => simp [splitLast, ih]

theorem pyDirname_join (d b : String) (hb : '/' ∉ b.data)
    (hd : d.data.reverse.headD '/' ≠ '/') :
    pyDirname (d ++ "/" ++ b) = d := by
  unfold pyDirname
  rw [slash_join_data, splitLast_append d.data b.data '/' hb]
  cases hrev : d.data.reverse with
  | nil => rw [hrev] at hd; simp at hd
  | cons x r =>
    have hx : ¬ (x = '/') := by rw [hrev] at hd; simpa using hd
    have hdd : d.data = r.reverse ++ [x] := by
      have h1 := congrArg List.reverse hrev
      rw [List.reverse_reverse, List.reverse_cons] at h1
      exact h1
    have hmem : x ∈ d.data ++ ['/'] := by
      rw [hdd]; simp
    have hall : ((d.data ++ ['/']).all fun y => y == '/') = false := by
      rcases hv : (d.data ++ ['/']).all fun y => y == '/' with _ | _
      · rfl
      · exact absurd (by simpa using List.all_eq_true.mp hv x hmem) hx
    have hstrip : rstripChar (d.data ++ ['/']) '/' = d.data := by
      unfold rstripChar
      have e1 : (d.data ++ ['/']).reverse = '/' :: d.data.reverse := by simp
      rw [e1, hrev, List.dropWhile_cons, List.dropWhile_cons]
      simp [hx, ← hrev]
    simp only [hall, Bool.false_eq_true, if_false, hstrip]

theorem matches_false_of_none {vs : List ViewSettings} {p : String}
    (h : findExisting vs p = none) :
    ∀ v ∈ vs, sessionMatches v p = false := by
  intro v hv
  have := List.find?_eq_none.mp h v hv
  simpa using this

theorem not_mem_of_none {vs : List ViewSettings} {p : String} {v : ViewSettings}
    (h : findExisting vs p = none) (hv : sessionMatches v p = true) : v ∉ vs := by
  intro hm
  have := matches_false_of_none h v hm
  rw [hv] at this
  cases this

theorem findExisting_append_of_none {vs : List ViewSettings} {p : String}
    (v : ViewSettings) (h : findExisting vs p = none)
    (hv : sessionMatches v p = true) :
    findExisting (vs ++ [v]) p = some v := by
  unfold findExisting at h ⊢
  induction vs with
  | nil => simp [List.find?, hv]
  | cons u t ih =>
    rcases hval : sessionMatches u p with _ | _
    · simp only [List.cons_append, List.find?_cons, hval] at h ⊢
      exact ih h
    · simp only [List.find?_cons, hval] at h
      cases h

theorem filter_matches_nil {vs : List ViewSettings} {p : String}
    (h : findExisting vs p = none) :
    vs.filter (fun v => sessionMatches v p) = [] :=
  List.filter_eq_nil_iff.mpr fun u hu => by simp [matches_false_of_none h u hu]

theorem removeFirst_append_singleton {vs : List ViewSettings} {v : ViewSettings}
    (h : v ∉ vs) : removeFirst (vs ++ [v]) v = vs := by
  induction vs with
  | nil => simp [removeFirst]
  | cons u t ih =>
    have hne : ¬ (u = v) := fun he => h (by rw [he]; exact List.mem_cons_self v t)
    have h2 : v ∉ t := fun hm => h (List.mem_cons_of_mem u hm)
    simp [removeFirst, hne, ih h2]

theorem openFlowCore_success (w : World) (p d b : String) (cim : Option Bool)
    (h0 : findExisting w.views p = none) :
    openFlowCore w p d b cim 0 ""
      = { views := w.views ++ [⟨true, some p, some (d ++ "/" ++ b), some cim⟩],
          dirs := w.dirs ++ [d], files := w.files ++ [d ++ "/" ++ b],
          fetchCount := w.fetchCount + 1 } := by
  unfold openFlowCore
  simp [h0]

theorem openFlowCore_found (w : World) (p d b : String) (cim : Option Bool)
    (rc : Int) (st : String) (h : (findExisting w.views p).isSome = true) :
    openFlowCore w p d b cim rc st = w := by
  unfold openFlowCore
  rw [h]
  rfl

theorem new_view_matches (p d b : String) (c : Option (Option Bool)) :
    sessionMatches ⟨true, some p, some (d ++ "/" ++ b), c⟩ p = true := by
  simp [sessionMatches, strTruthy, join_ne_empty]

/-! ### Claim theorems -/

/-- Claim C1 (amended): the §4.1 decision table is applied only to transfer
invocations whose exit status is EXACTLY 1 (not any nonzero status) with
nonempty captured error text; for those, the classification agrees with the
table — FatalError iff the text lacks "no such file or directory"
(case-insensitive) or contains "please try again" or the source has no `@` or
`createIfMissing` is false; otherwise MissingSourceCreate (an empty file is
created) exactly when the destination has no `@` and `createIfMissing` is
true, else MissingSourceSkip. -/
theorem scp_classification_exit1_matches_table
    (stderrText from_path to_path : String) (cim : Bool)
    (hst : stderrText ≠ "") :
    classify 1 stderrText from_path to_path cim
      = specTable stderrText from_path to_path cim ∧
    (scpAction 1 stderrText from_path to_path cim = ScpAction.createEmpty
      ↔ specTable stderrText from_path to_path cim
          = TransferOutcome.MissingSourceCreate) := by
  unfold classify scpAction specTable
  by_cases h1 : (!(pyIn "no such file or directory" (pyLower stderrText))
      || pyIn "please try again" (pyLower stderrText)
      || !(pyIn "@" from_path)
      || !cim) = true
  · simp [hst, h1]
  · by_cases h2 : (!(pyIn "@" to_path) && cim) = true
    · simp [hst, h1, h2]
    · simp [hst, h1, h2]

/-- Witness for `scp_classification_exit1_matches_table` at the spec's own
scenario: exit code 1, stderr "scp: /etc/app.conf: No such file or directory",
remote source, local destination, `createIfMissing = true`. -/
theorem scp_classification_exit1_matches_table_witness :
    ("scp: /etc/app.conf: No such file or directory" : String) ≠ "" ∧
    (classify 1 "scp: /etc/app.conf: No such file or directory"
        "dev@10.0.0.5:/etc/app.conf" "/tmp/re/app.conf" true
      = specTable "scp: /etc/app.conf: No such file or directory"
        "dev@10.0.0.5:/etc/app.conf" "/tmp/re/app.conf" true ∧
     (scpAction 1 "scp: /etc/app.conf: No such file or directory"
        "dev@10.0.0.5:/etc/app.conf" "/tmp/re/app.conf" true
        = ScpAction.createEmpty
      ↔ specTable "scp: /etc/app.conf: No such file or directory"
          "dev@10.0.0.5:/etc/app.conf" "/tmp/re/app.conf" true
          = TransferOutcome.MissingSourceCreate)) :=
  ⟨by decide,
   scp_classification_exit1_matches_table
     "scp: /etc/app.conf: No such file or directory"
     "dev@10.0.0.5:/etc/app.conf" "/tmp/re/app.conf" true (by decide)⟩

/-- Counterexample to claim C1 as stated: exit status 2 is nonzero and the
error text "error: connection reset" is nonempty and lacks "no such file or
directory", so the claim demands FatalError; the code only inspects return
code 1, performs no action at all, and the outcome is not FatalError. -/
theorem scp_classification_nonzero_exit_refuted :
    ((2 : Int) ≠ 0 ∧ ("error: connection reset" : String) ≠ "") ∧
    classify 2 "error: connection reset" "dev@10.0.0.5:/etc/app.conf"
        "/tmp/re/app.conf" false
      ≠ TransferOutcome.FatalError "error: connection reset" ∧
    scpAction 2 "error: connection reset" "dev@10.0.0.5:/etc/app.conf"
        "/tmp/re/app.conf" false
      = ScpAction.noAction := by decide

/-- Claim C2 (amended): the transfer classification is a pure function —
deterministic on identical inputs — and the outcome is Success iff the exit
code differs from 1 OR the captured stderr text is empty; only exit code 1
with nonempty stderr enters the error-classification path. (The original
"Success iff exitCode == 0" fails: any exit code other than 1 is left
unclassified and is observationally a success.) -/
theorem classify_deterministic_success_iff
    (rc : Int) (st f t : String) (c : Bool) :
    classify rc st f t c = classify rc st f t c ∧
    (classify rc st f t c = TransferOutcome.Success ↔ (rc ≠ 1 ∨ st = "")) := by
  refine ⟨rfl, ?_⟩
  unfold classify scpAction
  by_cases h1 : rc = 1
  · by_cases h2 : st = ""
    · simp [h1, h2]
    · by_cases h3 : (!(pyIn "no such file or directory" (pyLower st))
          || pyIn "please try again" (pyLower st)
          || !(pyIn "@" f)
          || !c) = true
      · simp [h1, h2, h3]
      · by_cases h4 : (!(pyIn "@" t) && c) = true
        · simp [h1, h2, h3, h4]
        · simp [h1, h2, h3, h4]
  · simp [h1]

/-- Counterexample to claim C2 as stated: exit code 2 is nonzero, yet the
code never enters the error-classification path and the outcome is Success,
refuting "outcome is Success iff exitCode == 0". -/
theorem classify_success_iff_zero_refuted :
    classify 2 "error: connection reset" "dev@10.0.0.5:/etc/app.conf"
        "/tmp/re/app.conf" true
      = TransferOutcome.Success ∧ (2 : Int) ≠ 0 := by decide

/-- Claim C3 (amended): when the caller passes a non-None `create_if_missing`
argument, EVERY present layer overwrites the running value with its own
`create_if_missing` coerced to a boolean (false when non-boolean or absent);
hence over `[global, project]` the merged value is the project layer's
coerced value when the project layer is present, and the global layer's
coerced value only when the project layer is skipped (`None`); a non-boolean
or absent value in a present later layer does NOT leave the previous value
unchanged — it resets it to false. When the caller passes None, no layer is
consulted and the merged value stays None. -/
theorem merge_create_if_missing_last_layer_wins :
    (∀ (v : PyVal) (g p : Layer),
        mergeCim (some v) [some g, some p]
          = some (PyVal.vbool (coerceBool p.create_if_missing))) ∧
    (∀ (v : PyVal) (g : Layer),
        mergeCim (some v) [some g, none]
          = some (PyVal.vbool (coerceBool g.create_if_missing))) ∧
    (∀ L : List (Option Layer), mergeCim none L = none) := by
  refine ⟨fun v g p => rfl, fun v g => rfl, ?_⟩
  intro L
  induction L with
  | nil => rfl
  | cons o rest ih => cases o <;> simp [mergeCim, ih]

/-- Counterexample to claim C3 as stated: the global layer defines the
boolean `true` and the project layer leaves `create_if_missing` absent, so
the claim demands the merged value `true` (global fallback); the code lets
the present project layer overwrite the value with `False` (its absent value
coerced), even though the caller asked for `true`. -/
theorem merge_create_if_missing_global_fallback_refuted :
    mergeCim (some (PyVal.vbool true))
        [some ⟨some (PyVal.vbool true), none⟩, some ⟨none, none⟩]
      = some (PyVal.vbool false) ∧
    some (PyVal.vbool false) ≠ some (PyVal.vbool true) := by decide

/-- Claim C4 (amended): every PRESENT layer replaces the working alias table
wholesale with its own `ssh_configs` coerced to a mapping — empty when the
layer defines none or a non-mapping — so the merged table equals the coerced
table of the LAST PRESENT layer; a skipped (`None`) layer leaves the table
unchanged; and the table is empty when no layer is present. (A present layer
that defines no mapping does not leave the table unchanged: it resets it to
empty.) -/
theorem merge_ssh_configs_last_present_layer :
    (∀ (acc : AliasTable) (L : List (Option Layer)) (l : Layer),
        mergeSsh acc (L ++ [some l]) = coerceDict l.ssh_configs) ∧
    (∀ (acc : AliasTable) (L : List (Option Layer)),
        mergeSsh acc (L ++ [none]) = mergeSsh acc L) ∧
    (∀ L : List (Option Layer), (∀ x ∈ L, x = none) → mergeSsh [] L = []) := by
  refine ⟨?_, ?_, ?_⟩
  · intro acc L l
    induction L generalizing acc with
    | nil => rfl
    | cons o rest ih => cases o <;> simp [mergeSsh, ih]
  · intro acc L
    induction L generalizing acc with
    | nil => rfl
    | cons o rest ih => cases o <;> simp [mergeSsh, ih]
  · intro L h
    induction L with
    | nil => rfl
    | cons o rest ih =>
      have ho : o = none := h o (List.mem_cons_self o rest)
      subst ho
      simpa [mergeSsh] using ih fun x hx => h x (List.mem_cons_of_mem none hx)

/-- Witness for `merge_ssh_configs_last_present_layer` at concrete layers:
a defining global layer followed by a present non-defining project layer, a
trailing skipped layer, and an all-skipped sequence. -/
theorem merge_ssh_configs_last_present_layer_witness :
    mergeSsh [] ([some ⟨none, none⟩]
        ++ [some ⟨none, some (PyVal.vdict
              [("prod", ⟨some "10.0.0.5", some "dev"⟩)])⟩])
      = coerceDict (some (PyVal.vdict
          [("prod", ⟨some "10.0.0.5", some "dev"⟩)])) ∧
    mergeSsh [] ([some ⟨none, some (PyVal.vdict
          [("prod", ⟨some "10.0.0.5", some "dev"⟩)])⟩] ++ [none])
      = mergeSsh [] [some ⟨none, some (PyVal.vdict
          [("prod", ⟨some "10.0.0.5", some "dev"⟩)])⟩] ∧
    mergeSsh [] [none, none] = [] :=
  ⟨merge_ssh_configs_last_present_layer.1 [] [some ⟨none, none⟩]
     ⟨none, some (PyVal.vdict [("prod", ⟨some "10.0.0.5", some "dev"⟩)])⟩,
   merge_ssh_configs_last_present_layer.2.1 []
     [some ⟨none, some (PyVal.vdict [("prod", ⟨some "10.0.0.5", some "dev"⟩)])⟩],
   merge_ssh_configs_last_present_layer.2.2 [none, none] (by decide)⟩

/-- Counterexample to claim C4 as stated: the first layer defines an alias
mapping and the second layer is present but defines none, so the claim
demands the first layer's table (a non-defining layer "leaves the working
table unchanged"); the code resets the table to empty. -/
theorem merge_ssh_configs_preserved_refuted :
    mergeSsh [] [some ⟨none, some (PyVal.vdict
        [("prod", ⟨some "10.0.0.5", some "dev"⟩)])⟩, some ⟨none, none⟩]
      = [] ∧
    ([] : AliasTable) ≠ [("prod", ⟨some "10.0.0.5", some "dev"⟩)] := by decide

/-- Claim C5 (amended): the open command splits the path at the FIRST colon
(not the last): a path with no colon keeps its `line_no` default `"0"` and
the cursor is positioned at line 0; for a path `a:b` with colon-free `a`, the
transfer path is `a` and the cursor is positioned at line `int(b)` exactly
when the suffix `b` is nonempty and all digits; a non-digit suffix triggers
no positioning but is STRIPPED from the transfer path, not preserved. -/
theorem open_path_first_colon_split
    (a b p : String) (ha : ':' ∉ a.data) (hp : ':' ∉ p.data) :
    (parseOpenPath p = (p, "0") ∧ lineTarget p = some 0) ∧
    parseOpenPath (a ++ ":" ++ b) = (a, b) ∧
    (pyIsdigit b = true →
      lineTarget (a ++ ":" ++ b) = some (digitsVal b.data)) ∧
    (pyIsdigit b = false →
      lineTarget (a ++ ":" ++ b) = none ∧ transferPath (a ++ ":" ++ b) = a) := by
  have hpp : parseOpenPath p = (p, "0") := by
    unfold parseOpenPath
    rw [splitFirst_eq_none hp]
  have hab : parseOpenPath (a ++ ":" ++ b) = (a, b) := by
    unfold parseOpenPath
    rw [colon_join_data, splitFirst_append a.data b.data ':' ha]
  refine ⟨⟨hpp, ?_⟩, hab, fun hd => ?_, fun hd => ⟨?_, ?_⟩⟩
  · simp only [lineTarget, hpp]
    decide
  · simp [lineTarget, hab, hd]
  · simp [lineTarget, hab, hd]
  · unfold transferPath
    rw [hab]

/-- Witness for `open_path_first_colon_split` at concrete paths: a colon-free
path, a numeric suffix, and a non-numeric suffix. -/
theorem open_path_first_colon_split_witness :
    (':' ∉ ("srv/etc/app.conf" : String).data) ∧
    (':' ∉ ("plain" : String).data) ∧
    ((parseOpenPath "plain" = ("plain", "0") ∧ lineTarget "plain" = some 0) ∧
     parseOpenPath ("srv/etc/app.conf" ++ ":" ++ "37")
       = ("srv/etc/app.conf", "37") ∧
     (pyIsdigit "37" = true →
       lineTarget ("srv/etc/app.conf" ++ ":" ++ "37")
         = some (digitsVal "37".data)) ∧
     (pyIsdigit "37" = false →
       lineTarget ("srv/etc/app.conf" ++ ":" ++ "37") = none ∧
       transferPath ("srv/etc/app.conf" ++ ":" ++ "37") = "srv/etc/app.conf")) :=
  ⟨by decide, by decide,
   open_path_first_colon_split "srv/etc/app.conf" "37" "plain"
     (by decide) (by decide)⟩

/-- Counterexample to claim C5 as stated: for the path "file:abc" the
non-digit suffix is NOT preserved as part of the path used for the transfer —
the split happens unconditionally and the transfer path becomes "file". -/
theorem open_path_suffix_preserved_refuted :
    transferPath "file:abc" = "file" ∧
    ("file" : String) ≠ "file:abc" ∧
    lineTarget "file:abc" = none := by decide

/-- Claim C6: running the Open flow twice for the same resolved target before
a close performs exactly one fetch: after a first successful open (exit code
0) from a state with no session for the composed scp path, a second open —
possibly through a different alias, as long as the composed scp path string
is equal — leaves the world unchanged (no second scp invocation, the
registered view is reused), and exactly one view matches the target. -/
theorem open_twice_single_fetch
    (w : World) (a1 a2 path1 path2 d1 b1 d2 b2 p q : String)
    (cfg1 cfg2 : SshConfig) (cim1 cim2 : Option Bool) (rc2 : Int) (st2 : String)
    (hp : p = composeScpPath cfg1 a1 path1)
    (hq : q = composeScpPath cfg2 a2 path2)
    (heq : q = p)
    (h0 : findExisting w.views p = none) :
    (openFlowCore w p d1 b1 cim1 0 "").fetchCount = w.fetchCount + 1 ∧
    openFlowCore (openFlowCore w p d1 b1 cim1 0 "") q d2 b2 cim2 rc2 st2
      = openFlowCore w p d1 b1 cim1 0 "" ∧
    ((openFlowCore w p d1 b1 cim1 0 "").views.filter
        (fun v => sessionMatches v p)).length = 1 := by
  have hw1 := openFlowCore_success w p d1 b1 cim1 h0
  have hfind : findExisting (openFlowCore w p d1 b1 cim1 0 "").views p
      = some ⟨true, some p, some (d1 ++ "/" ++ b1), some cim1⟩ := by
    rw [hw1]
    exact findExisting_append_of_none _ h0 (new_view_matches p d1 b1 (some cim1))
  refine ⟨by rw [hw1], ?_, ?_⟩
  · rw [heq]
    exact openFlowCore_found _ _ _ _ _ _ _ (by rw [hfind]; rfl)
  · rw [hw1]
    rw [List.filter_append, filter_matches_nil h0]
    simp [new_view_matches]

/-- Witness for `open_twice_single_fetch`: two aliases ("prod" and
"production") resolving to the same composed scp path
"dev@10.0.0.5:/etc/app.conf", opened twice from an empty world. -/
theorem open_twice_single_fetch_witness :
    ("dev@10.0.0.5:/etc/app.conf" : String)
      = composeScpPath ⟨some "10.0.0.5", some "dev"⟩ "prod" "/etc/app.conf" ∧
    ("dev@10.0.0.5:/etc/app.conf" : String)
      = composeScpPath ⟨some "10.0.0.5", some "dev"⟩ "production" "/etc/app.conf" ∧
    findExisting (World.mk [] [] [] 0).views "dev@10.0.0.5:/etc/app.conf" = none ∧
    ((openFlowCore ⟨[], [], [], 0⟩ "dev@10.0.0.5:/etc/app.conf" "/tmp/re1"
        "app.conf" (some true) 0 "").fetchCount = (World.mk [] [] [] 0).fetchCount + 1 ∧
     openFlowCore (openFlowCore ⟨[], [], [], 0⟩ "dev@10.0.0.5:/etc/app.conf"
        "/tmp/re1" "app.conf" (some true) 0 "") "dev@10.0.0.5:/etc/app.conf"
        "/tmp/re2" "app.conf" (some true) 0 ""
       = openFlowCore ⟨[], [], [], 0⟩ "dev@10.0.0.5:/etc/app.conf" "/tmp/re1"
           "app.conf" (some true) 0 "" ∧
     ((openFlowCore ⟨[], [], [], 0⟩ "dev@10.0.0.5:/etc/app.conf" "/tmp/re1"
        "app.conf" (some true) 0 "").views.filter
          (fun v => sessionMatches v "dev@10.0.0.5:/etc/app.conf")).length = 1) :=
  ⟨by decide, by decide, by decide,
   open_twice_single_fetch ⟨[], [], [], 0⟩ "prod" "production" "/etc/app.conf"
     "/etc/app.conf" "/tmp/re1" "app.conf" "/tmp/re2" "app.conf"
     "dev@10.0.0.5:/etc/app.conf" "dev@10.0.0.5:/etc/app.conf"
     ⟨some "10.0.0.5", some "dev"⟩ ⟨some "10.0.0.5", some "dev"⟩
     (some true) (some true) 0 "" (by decide) (by decide) rfl (by decide)⟩

/-- Claim C7 (amended): when the fetch of an Open-flow invocation ends in a
fatal transfer error (error message shown, no temp file materialised), the
flow aborts with no Session registered and no temp file on disk — but the
speculatively created temp directory is NOT removed: the code leaves it
orphaned on disk (nothing in the open flow deletes the `mkdtemp` result). -/
theorem open_fatal_no_session_dir_leaked
    (w : World) (p d b : String) (cim : Option Bool) (rc : Int) (st : String)
    (h0 : findExisting w.views p = none)
    (hrc : rc ≠ 0)
    (hact : scpAction rc st p (d ++ "/" ++ b) (cim.getD false)
      = ScpAction.showError st)
    (hfresh : (d ++ "/" ++ b) ∉ w.files) :
    (openFlowCore w p d b cim rc st).views = w.views ∧
    d ∈ (openFlowCore w p d b cim rc st).dirs ∧
    (d ++ "/" ++ b) ∉ (openFlowCore w p d b cim rc st).files := by
  have hcond : ¬ (rc = 0 ∨ scpAction rc st p (d ++ "/" ++ b) (cim.getD false)
      = ScpAction.createEmpty) := by
    rintro (h | h)
    · exact hrc h
    · rw [hact] at h
      cases h
  unfold openFlowCore
  simp [h0, hcond, hfresh]

/-- Witness for `open_fatal_no_session_dir_leaked`: exit code 1 with stderr
"scp: /etc/app.conf: No such file or directory" and `create_if_missing`
false is fatal; the temp directory "/tmp/re1" stays on disk. -/
theorem open_fatal_no_session_dir_leaked_witness :
    findExisting (World.mk [] [] [] 0).views "dev@10.0.0.5:/etc/app.conf" = none ∧
    (1 : Int) ≠ 0 ∧
    scpAction 1 "scp: /etc/app.conf: No such file or directory"
        "dev@10.0.0.5:/etc/app.conf" ("/tmp/re1" ++ "/" ++ "app.conf")
        ((some false : Option Bool).getD false)
      = ScpAction.showError "scp: /etc/app.conf: No such file or directory" ∧
    (("/tmp/re1" ++ "/" ++ "app.conf") ∉ (World.mk [] [] [] 0).files) ∧
    ((openFlowCore ⟨[], [], [], 0⟩ "dev@10.0.0.5:/etc/app.conf" "/tmp/re1"
        "app.conf" (some false) 1
        "scp: /etc/app.conf: No such file or directory").views
      = (World.mk [] [] [] 0).views ∧
     "/tmp/re1" ∈ (openFlowCore ⟨[], [], [], 0⟩ "dev@10.0.0.5:/etc/app.conf"
        "/tmp/re1" "app.conf" (some false) 1
        "scp: /etc/app.conf: No such file or directory").dirs ∧
     ("/tmp/re1" ++ "/" ++ "app.conf") ∉ (openFlowCore ⟨[], [], [], 0⟩
        "dev@10.0.0.5:/etc/app.conf" "/tmp/re1" "app.conf" (some false) 1
        "scp: /etc/app.conf: No such file or directory").files) :=
  ⟨by decide, by decide, by decide, by decide,
   open_fatal_no_session_dir_leaked ⟨[], [], [], 0⟩
     "dev@10.0.0.5:/etc/app.conf" "/tmp/re1" "app.conf" (some false) 1
     "scp: /etc/app.conf: No such file or directory"
     (by decide) (by decide) (by decide) (by decide)⟩

/-- Counterexample to claim C7 as stated: a fatal fetch ("scp: permission
denied", `create_if_missing` false) from an empty world registers no session,
yet the speculatively created temp directory "/tmp/re1" remains on disk,
refuting "the speculatively created temp directory is removed and no orphaned
directory is left on disk". -/
theorem open_fatal_dir_removed_refuted :
    (openFlowCore ⟨[], [], [], 0⟩ "dev@10.0.0.5:/etc/app.conf" "/tmp/re1"
        "app.conf" (some false) 1 "scp: permission denied").views = [] ∧
    (openFlowCore ⟨[], [], [], 0⟩ "dev@10.0.0.5:/etc/app.conf" "/tmp/re1"
        "app.conf" (some false) 1 "scp: permission denied").dirs
      = ["/tmp/re1"] ∧
    (["/tmp/re1"] : List String) ≠ [] := by decide

/-- Claim C8: closing a view with complete Session metadata performs exactly
the ordered operations "unlink the temp file, then rmdir its enclosing temp
directory" (each once, file strictly first), and once the host has removed
the closed view a registry lookup for the target returns absent. -/
theorem close_deletes_file_then_dir_deregisters
    (w : World) (p d b : String) (c : Option (Option Bool))
    (h0 : findExisting w.views p = none)
    (hb : '/' ∉ b.data)
    (hd : d.data.reverse.headD '/' ≠ '/') :
    closeTrace ⟨true, some p, some (d ++ "/" ++ b), c⟩
      = [FsOp.unlink (d ++ "/" ++ b), FsOp.rmdir d] ∧
    findExisting
        (removeFirst (w.views ++ [⟨true, some p, some (d ++ "/" ++ b), c⟩])
          ⟨true, some p, some (d ++ "/" ++ b), c⟩) p = none := by
  constructor
  · simp [closeTrace, pyDirname_join d b hb hd]
  · have hv := new_view_matches p d b c
    have hnm : (⟨true, some p, some (d ++ "/" ++ b), c⟩ : ViewSettings) ∉ w.views :=
      not_mem_of_none h0 hv
    rw [removeFirst_append_singleton hnm]
    exact h0

/-- Witness for `close_deletes_file_then_dir_deregisters` at a concrete
session view for "dev@10.0.0.5:/etc/app.conf" with temp file
"/tmp/re2/app.conf". -/
theorem close_deletes_file_then_dir_deregisters_witness :
    findExisting (World.mk [] [] [] 0).views "dev@10.0.0.5:/etc/app.conf" = none ∧
    ('/' ∉ ("app.conf" : String).data) ∧
    (("/tmp/re2" : String).data.reverse.headD '/' ≠ '/') ∧
    (closeTrace ⟨true, some "dev@10.0.0.5:/etc/app.conf",
        some ("/tmp/re2" ++ "/" ++ "app.conf"), some (some true)⟩
      = [FsOp.unlink ("/tmp/re2" ++ "/" ++ "app.conf"), FsOp.rmdir "/tmp/re2"] ∧
     findExisting
        (removeFirst ((World.mk [] [] [] 0).views
            ++ [⟨true, some "dev@10.0.0.5:/etc/app.conf",
                  some ("/tmp/re2" ++ "/" ++ "app.conf"), some (some true)⟩])
          ⟨true, some "dev@10.0.0.5:/etc/app.conf",
            some ("/tmp/re2" ++ "/" ++ "app.conf"), some (some true)⟩)
        "dev@10.0.0.5:/etc/app.conf" = none) :=
  ⟨by decide, by decide, by decide,
   close_deletes_file_then_dir_deregisters ⟨[], [], [], 0⟩
     "dev@10.0.0.5:/etc/app.conf" "/tmp/re2" "app.conf" (some (some true))
     (by decide) (by decide) (by decide)⟩

/-- Claim C9: the `create_if_missing` policy is fixed at Session creation —
a successful open stores exactly the resolved value in the view's metadata —
and the save flow passes exactly that stored value to the transfer; the save
handler reads only the view's settings (its model takes no configuration at
all), so the policy is never re-resolved on save. -/
theorem save_uses_session_policy
    (w : World) (p d b : String) (cim : Option Bool)
    (h0 : findExisting w.views p = none) :
    (openFlowCore w p d b cim 0 "").views
      = w.views ++ [⟨true, some p, some (d ++ "/" ++ b), some cim⟩] ∧
    saveScpArgs ⟨true, some p, some (d ++ "/" ++ b), some cim⟩
      = some (d ++ "/" ++ b, p, cim) := by
  constructor
  · rw [openFlowCore_success w p d b cim h0]
  · rfl

/-- Witness for `save_uses_session_policy`: a session opened with policy
`some false`; the save passes back exactly `some false`. -/
theorem save_uses_session_policy_witness :
    findExisting (World.mk [] [] [] 0).views "dev@10.0.0.5:/etc/app.conf" = none ∧
    ((openFlowCore ⟨[], [], [], 0⟩ "dev@10.0.0.5:/etc/app.conf" "/tmp/re3"
        "app.conf" (some false) 0 "").views
      = (World.mk [] [] [] 0).views
          ++ [⟨true, some "dev@10.0.0.5:/etc/app.conf",
                some ("/tmp/re3" ++ "/" ++ "app.conf"), some (some false)⟩] ∧
     saveScpArgs ⟨true, some "dev@10.0.0.5:/etc/app.conf",
        some ("/tmp/re3" ++ "/" ++ "app.conf"), some (some false)⟩
      = some ("/tmp/re3" ++ "/" ++ "app.conf", "dev@10.0.0.5:/etc/app.conf",
              some false)) :=
  ⟨by decide,
   save_uses_session_policy ⟨[], [], [], 0⟩ "dev@10.0.0.5:/etc/app.conf"
     "/tmp/re3" "app.conf" (some false) (by decide)⟩

/-- Claim C10: a transfer that exits with code 1 and empty captured stderr
takes no action at all — no error message, no status message, no file
creation, for every source/destination and even with `create_if_missing`
true and a remote source — so the subsequent open flow registers no view
(aborting silently at the `os.path.exists` check) while still having spent
its one scp invocation. -/
theorem exit1_empty_stderr_silent
    (w : World) (p d b f t : String) (cim : Option Bool) (c : Bool)
    (h0 : findExisting w.views p = none)
    (hfresh : (d ++ "/" ++ b) ∉ w.files) :
    scpAction 1 "" f t c = ScpAction.noAction ∧
    (openFlowCore w p d b cim 1 "").views = w.views ∧
    (d ++ "/" ++ b) ∉ (openFlowCore w p d b cim 1 "").files ∧
    (openFlowCore w p d b cim 1 "").fetchCount = w.fetchCount + 1 := by
  have hact : scpAction 1 "" p (d ++ "/" ++ b) (cim.getD false)
      = ScpAction.noAction := by
    simp [scpAction]
  refine ⟨by simp [scpAction], ?_⟩
  unfold openFlowCore
  simp [h0, hact, hfresh]

/-- Witness for `exit1_empty_stderr_silent`: remote source
"dev@10.0.0.5:/etc/app.conf", `create_if_missing` true, exit code 1 with
empty stderr: no action, no view, no temp file. -/
theorem exit1_empty_stderr_silent_witness :
    findExisting (World.mk [] [] [] 0).views "dev@10.0.0.5:/etc/app.conf" = none ∧
    (("/tmp/re4" ++ "/" ++ "app.conf") ∉ (World.mk [] [] [] 0).files) ∧
    (scpAction 1 "" "dev@10.0.0.5:/etc/app.conf" "/tmp/re4/app.conf" true
      = ScpAction.noAction ∧
     (openFlowCore ⟨[], [], [], 0⟩ "dev@10.0.0.5:/etc/app.conf" "/tmp/re4"
        "app.conf" (some true) 1 "").views = (World.mk [] [] [] 0).views ∧
     ("/tmp/re4" ++ "/" ++ "app.conf") ∉ (openFlowCore ⟨[], [], [], 0⟩
        "dev@10.0.0.5:/etc/app.conf" "/tmp/re4" "app.conf" (some true) 1
        "").files ∧
     (openFlowCore ⟨[], [], [], 0⟩ "dev@10.0.0.5:/etc/app.conf" "/tmp/re4"
        "app.conf" (some true) 1 "").fetchCount
       = (World.mk [] [] [] 0).fetchCount + 1) :=
  ⟨by decide, by decide,
   exit1_empty_stderr_silent ⟨[], [], [], 0⟩ "dev@10.0.0.5:/etc/app.conf"
     "/tmp/re4" "app.conf" "dev@10.0.0.5:/etc/app.conf" "/tmp/re4/app.conf"
     (some true) true (by decide) (by decide)⟩
